import Mathlib

/-!
Shallow embedding of `src/audio_to_article/main.py` (an audio → article
pipeline script) together with the facts needed to check its specification.

Modelling conventions:
* The filesystem is an explicit state `FS`: a partial map from paths to text
  file contents, plus the set of created directories and the maps of exported
  word-processor / PDF documents.  Python file operations become pure state
  transformers.
* The Google GenAI client is a function from a generation request (model id,
  optional sampling temperature, prompt contents) to `Except String GenResponse`:
  `Except.error e` models an exception whose `str()` is `e`, `Except.ok r`
  models a response object exposing `r.text`.
* Sampling temperatures are only ever passed through, never computed with, so
  the Python float literals `0.4` / `0.5` are modelled by the exact rationals
  they denote (`2/5`, `1/2`).
* `print` output is collected into a `List String` where a claim mentions it.
-/

/-- A word-processor document as built by python-docx: the list of its
paragraphs' texts.  `Document()` starts from the default template, which has
no body paragraphs; `add_paragraph` appends one. -/
structure DocxDocument where
  paragraphs : List String
deriving DecidableEq, Repr

/-- Filesystem state threaded through the pipeline: text files (the transcript
cache), created directories, and the exported documents. -/
structure FS where
  files : String → Option String
  dirs : List String
  docxFiles : String → Option DocxDocument
  pdfFiles : String → Option String

/-- Writing a text file (`open(path, "w").write(content)`): the UTF-8 text is
stored verbatim at the path, replacing any previous file. -/
def FS.writeText (fs : FS) (path content : String) : FS :=
  { fs with files := fun p => if p = path then some content else fs.files p }

/-- `os.path.join(base, sub)` for the script's purposes.  The script runs on
Windows paths; `os.path.join` inserts the separator unless `base` already ends
with one — the trailing-separator collapse is immaterial to every claim, so the
separator is always inserted here. -/
def os_path_join (base sub : String) : String :=
  base ++ "\\" ++ sub

/-- `os.makedirs(path, exist_ok=True)`: create the directory if missing; if it
already exists this is a no-op (no error). -/
def os_makedirs (fs : FS) (path : String) : FS :=
  if path ∈ fs.dirs then fs else { fs with dirs := path :: fs.dirs }

/-- The default subdirectory names of `ensure_directories`
(main.py line 70). -/
def default_subdirs : List String := ["audio_files", "transcripts", "articles"]

/-- `ensure_directories(base_path, subdirs=None)` (main.py lines 67–72):
ensure each required subdirectory exists under `base_path`, defaulting to the
three fixed names; returns nothing, so the embedding returns the updated
filesystem state only. -/
def ensure_directories (base_path : String) (subdirs : Option (List String))
    (fs : FS) : FS :=
  (subdirs.getD default_subdirs).foldl
    (fun fs sub => os_makedirs fs (os_path_join base_path sub)) fs

/-- Outcome of the transcript stage: the filesystem afterwards, the transcript
value bound by the script, and the printed lines. -/
structure TranscriptOutcome where
  fs : FS
  transcript : String
  printed : List String

/-- The transcript cache branch of the script (main.py lines 89–100).
`transcribe_audio` (whisper) is passed in as a function: on a cache hit
(`os.path.isfile(transcript_path)`) the cache file is read back and the
function is never applied; on a miss it is applied to the audio path and its
result written to the cache path.  The branch condition looks only at the
existence of the transcript file — never at the audio file's content or
modification time, neither of which even reaches this code. -/
def runTranscriptStage (fs : FS) (transcribe_audio : String → String)
    (audio_file_path transcript_path : String) : TranscriptOutcome :=
  match fs.files transcript_path with
  | some content =>
      { fs := fs
        transcript := content
        printed := ["The transcript is already extracted and saved.",
                    "The transcript is loaded and ready."] }
  | none =>
      let transcript := transcribe_audio audio_file_path
      { fs := fs.writeText transcript_path transcript
        transcript := transcript
        printed := ["Transcription is extracted and saved to " ++ transcript_path] }

-- Helper lemmas about directory creation.

lemma os_makedirs_mem_self (fs : FS) (q : String) : q ∈ (os_makedirs fs q).dirs := by
  unfold os_makedirs
  by_cases h : q ∈ fs.dirs
  · simp [h]
  · simp [h]

lemma os_makedirs_dirs_mono (fs : FS) (p q : String) (h : p ∈ fs.dirs) :
    p ∈ (os_makedirs fs q).dirs := by
  unfold os_makedirs
  by_cases hq : q ∈ fs.dirs
  · simpa [hq]
  · simp [hq, h, List.mem_cons]

lemma os_makedirs_of_mem (fs : FS) (q : String) (h : q ∈ fs.dirs) :
    os_makedirs fs q = fs := by
  unfold os_makedirs
  simp [h]

lemma foldl_makedirs_dirs_mono (b : String) (l : List String) (fs : FS) (p : String)
    (h : p ∈ fs.dirs) :
    p ∈ (l.foldl (fun fs sub => os_makedirs fs (os_path_join b sub)) fs).dirs := by
  induction l generalizing fs with
  | nil => simpa using h
  | cons x xs ih =>
      simp only [List.foldl_cons]
      exact ih _ (os_makedirs_dirs_mono _ _ _ h)

lemma foldl_makedirs_mem (b : String) (l : List String) (fs : FS) (sub : String)
    (h : sub ∈ l) :
    os_path_join b sub ∈ (l.foldl (fun fs s => os_makedirs fs (os_path_join b s)) fs).dirs := by
  induction l generalizing fs with
  | nil => cases h
  | cons x xs ih =>
      simp only [List.foldl_cons]
      rcases List.mem_cons.mp h with h | h
      · subst h
        exact foldl_makedirs_dirs_mono _ _ _ _ (os_makedirs_mem_self _ _)
      · exact ih _ h

lemma foldl_makedirs_id (b : String) (l : List String) (fs : FS)
    (h : ∀ sub ∈ l, os_path_join b sub ∈ fs.dirs) :
    l.foldl (fun fs s => os_makedirs fs (os_path_join b s)) fs = fs := by
  induction l generalizing fs with
  | nil => rfl
  | cons x xs ih =>
      simp only [List.foldl_cons]
      rw [os_makedirs_of_mem _ _ (h x (List.mem_cons_self x xs))]
      exact ih _ (fun s hs => h s (List.mem_cons_of_mem _ hs))

/-- C6: `ensure_directories` is idempotent: for every base path, subdirectory
set (the default three fixed names included, via `subdirs = none`), and
starting filesystem, running it twice raises no error (it is a total function)
and yields exactly the same filesystem state — hence the same set of
directories — as running it once, and the default corresponds to the three
fixed names. -/
theorem ensure_directories_idempotent (base_path : String)
    (subdirs : Option (List String)) (fs : FS) :
    ensure_directories base_path subdirs (ensure_directories base_path subdirs fs) =
      ensure_directories base_path subdirs fs ∧
    ensure_directories base_path none fs =
      ensure_directories base_path (some ["audio_files", "transcripts", "articles"]) fs := by
  constructor
  · unfold ensure_directories
    exact foldl_makedirs_id _ _ _ (fun sub hs => foldl_makedirs_mem _ _ _ _ hs)
  · rfl

/-- C1: on a cache hit (the transcript cache file exists with content `c`),
the stage leaves the filesystem untouched, yields exactly the cached content
as the transcript, and produces an outcome independent of the transcription
function — the transcription operation is never invoked, and nothing (audio
content, modification times) besides the cache entry influences the result. -/
theorem transcript_cache_hit (fs : FS) (t₁ t₂ : String → String)
    (audio_file_path transcript_path c : String)
    (h : fs.files transcript_path = some c) :
    (runTranscriptStage fs t₁ audio_file_path transcript_path).fs = fs ∧
    (runTranscriptStage fs t₁ audio_file_path transcript_path).transcript = c ∧
    runTranscriptStage fs t₁ audio_file_path transcript_path =
      runTranscriptStage fs t₂ audio_file_path transcript_path := by
  unfold runTranscriptStage
  rw [h]
  exact ⟨rfl, rfl, rfl⟩

/-- Concrete filesystem with a pre-existing transcript cache file, for the
cache-hit witness. -/
def fsCacheHit : FS :=
  { files := fun p =>
      if p = "AI_Foundation_Model_Selection_transcript.txt" then some "cached text"
      else none
    dirs := []
    docxFiles := fun _ => none
    pdfFiles := fun _ => none }

/-- Witness for C1 at a concrete cached filesystem. -/
theorem transcript_cache_hit_witness :
    (runTranscriptStage fsCacheHit (fun _ => "fresh transcription") "a.mp3"
        "AI_Foundation_Model_Selection_transcript.txt").transcript = "cached text" ∧
    (runTranscriptStage fsCacheHit (fun _ => "fresh transcription") "a.mp3"
        "AI_Foundation_Model_Selection_transcript.txt").fs = fsCacheHit := by
  have h := transcript_cache_hit fsCacheHit (fun _ => "fresh transcription")
    (fun _ => "other transcription") "a.mp3"
    "AI_Foundation_Model_Selection_transcript.txt" "cached text" rfl
  exact ⟨h.2.1, h.1⟩

/-- C5: on a cache miss (no file at the transcript path), the transcription
result is written verbatim to the cache path, the stage's transcript value is
that result, and a subsequent run on the resulting filesystem (with any
transcription function) reads back exactly the same text. -/
theorem transcript_cache_miss (fs : FS) (t t₂ : String → String)
    (audio_file_path transcript_path : String)
    (h : fs.files transcript_path = none) :
    (runTranscriptStage fs t audio_file_path transcript_path).transcript =
      t audio_file_path ∧
    (runTranscriptStage fs t audio_file_path transcript_path).fs.files transcript_path =
      some (t audio_file_path) ∧
    (runTranscriptStage (runTranscriptStage fs t audio_file_path transcript_path).fs
        t₂ audio_file_path transcript_path).transcript = t audio_file_path := by
  unfold runTranscriptStage
  rw [h]
  refine ⟨rfl, ?_, ?_⟩
  · simp [FS.writeText]
  · simp [FS.writeText]

/-- Concrete filesystem with no transcript cache file, for the cache-miss
witness. -/
def fsCacheMiss : FS :=
  { files := fun _ => none
    dirs := []
    docxFiles := fun _ => none
    pdfFiles := fun _ => none }

/-- Witness for C5 at a concrete empty filesystem: the transcription result is
written to the cache and read back by the next run. -/
theorem transcript_cache_miss_witness :
    (runTranscriptStage fsCacheMiss (fun _ => "fresh transcription") "a.mp3"
        "a_transcript.txt").fs.files "a_transcript.txt" = some "fresh transcription" ∧
    (runTranscriptStage
        (runTranscriptStage fsCacheMiss (fun _ => "fresh transcription") "a.mp3"
          "a_transcript.txt").fs
        (fun _ => "other transcription") "a.mp3" "a_transcript.txt").transcript =
      "fresh transcription" := by
  have h := transcript_cache_miss fsCacheMiss (fun _ => "fresh transcription")
    (fun _ => "other transcription") "a.mp3" "a_transcript.txt" rfl
  exact ⟨h.2.1, h.2.2⟩

/-- A generation request as issued through
`client.models.generate_content(model=…, config=…, contents=…)`: the model
identifier, the sampling temperature carried by the config (absent when no
config is passed), and the prompt contents. -/
structure GenRequest where
  model : String
  temperature : Option Rat
  contents : String
deriving DecidableEq, Repr

/-- A response object from the generative service, of which the script only
ever reads `.text`. -/
structure GenResponse where
  text : String
deriving DecidableEq, Repr

/-- The generative-service client: one method taking a request and either
returning a response object (`Except.ok`) or raising an exception whose text
is the error value (`Except.error`). -/
abbrev Client := GenRequest → Except String GenResponse

/-- The fixed draft prompt (main.py line 151), embedding the transcript
verbatim. -/
def draftPrompt (transcript : String) : String :=
  "Draft an informative, well-structured article with three to five paragraphs based on the following transcript: "
    ++ transcript

/-- The request issued by `draft_article` (main.py lines 148–152). -/
def draftRequest (transcript foundation_model : String) (temperature : Rat) : GenRequest :=
  { model := foundation_model
    temperature := some temperature
    contents := draftPrompt transcript }

/-- Outcome of `draft_article`: the Python return value (`None` on error),
the printed lines, and the generation requests issued. -/
structure DraftOutcome where
  result : Option String
  printed : List String
  requests : List GenRequest

/-- `draft_article(transcript, foundation_model, temperature=0.5)`
(main.py lines 136–159).  The one generation call sits inside
`try`/`except Exception`: on success the response's `.text` is returned; on
any exception the function prints a diagnostic containing the exception text
and returns `None`.  The embedding is a total function — the Python function
never raises.  The client is the module-global `client` of main.py line 133,
threaded here as an explicit ambient argument (see
`main_draft_article_params` for the source's actual parameter list). -/
def draft_article (client : Client) (transcript foundation_model : String)
    (temperature : Rat := (1 : Rat)/2) : DraftOutcome :=
  let req := draftRequest transcript foundation_model temperature
  match client req with
  | Except.ok article_draft =>
      { result := some article_draft.text
        printed := []
        requests := [req] }
  | Except.error e =>
      { result := none
        printed := ["An error occurred during article generation: " ++ e]
        requests := [req] }

/-- C2: for every transcript, model identifier, temperature and client
behaviour, `draft_article` is total (it never raises): when the generation
call raises an exception `e` it returns the absent result `none` and prints
exactly one diagnostic line, namely a fixed prefix followed by the original
exception text `e`; when the call succeeds it returns the generated text. -/
theorem draft_article_error_handling (client : Client)
    (transcript foundation_model : String) (temperature : Rat) :
    (∀ e, client (draftRequest transcript foundation_model temperature) = Except.error e →
      (draft_article client transcript foundation_model temperature).result = none ∧
      (draft_article client transcript foundation_model temperature).printed =
        ["An error occurred during article generation: " ++ e]) ∧
    (∀ r, client (draftRequest transcript foundation_model temperature) = Except.ok r →
      (draft_article client transcript foundation_model temperature).result = some r.text) := by
  constructor
  · intro e he
    simp [draft_article, he]
  · intro r hr
    simp [draft_article, hr]

/-- Witness for C2, mirroring the repository's own test inputs: a client that
always raises `"API Error"` yields an absent result and the diagnostic line,
and a client that succeeds yields the generated text. -/
theorem draft_article_error_handling_witness :
    (draft_article (fun _ => Except.error "API Error") "some transcript"
        "gemini-test-flash" ((1 : Rat)/2)).result = none ∧
    (draft_article (fun _ => Except.error "API Error") "some transcript"
        "gemini-test-flash" ((1 : Rat)/2)).printed =
      ["An error occurred during article generation: API Error"] ∧
    (draft_article (fun _ => Except.ok ⟨"Mocked article text"⟩) "some transcript"
        "gemini-test-flash" ((1 : Rat)/2)).result = some "Mocked article text" := by
  have herr := (draft_article_error_handling (fun _ => Except.error "API Error")
    "some transcript" "gemini-test-flash" ((1 : Rat)/2)).1 "API Error" rfl
  have hok := (draft_article_error_handling (fun _ => Except.ok ⟨"Mocked article text"⟩)
    "some transcript" "gemini-test-flash" ((1 : Rat)/2)).2 ⟨"Mocked article text"⟩ rfl
  exact ⟨herr.1, herr.2, hok⟩

/-- The fixed improvement prompt (main.py lines 192–194).  The Python source
uses one string literal with backslash line continuations, so the runs of
spaces from the continuation lines' indentation are part of the prompt. -/
def improvePrompt (article_text : String) : String :=
  "Improve the following article for grammar, clarity, and readability without shortening it.         Keep the original title and all section headings exactly as they appear.         Return only the improved article text — no introductions, explanations, or additional commentary:\n\n"
    ++ article_text

/-- The request issued by the improvement pass (main.py lines 190–195): the
model identifier is hard-coded to `"gemini-2.0-flash"` and no config (hence no
temperature) is passed; neither is exposed to the caller. -/
def improveRequest (article_text : String) : GenRequest :=
  { model := "gemini-2.0-flash"
    temperature := none
    contents := improvePrompt article_text }

/-- The improvement pass (main.py lines 190–201): one generation request, no
`try`/`except` — an exception propagates uncaught, modelled by the
`Except.error` outcome — and on success the value is exactly
`improved_article.text`.  The returned list records the requests issued. -/
def improvement_pass (client : Client) (article_text : String) :
    Except String String × List GenRequest :=
  let req := improveRequest article_text
  match client req with
  | Except.ok improved_article => (Except.ok improved_article.text, [req])
  | Except.error e => (Except.error e, [req])

/-- C4: the improvement pass issues exactly one generation request; on success
its value is exactly the `.text` exposed by the response object, unmodified;
if the generation call raises, the exception propagates uncaught (the outcome
is the error itself — there is no catch, unlike the draft stage, whose
embedding `draft_article` converts errors to `none`). -/
theorem improvement_pass_spec (client : Client) (article_text : String) :
    (improvement_pass client article_text).2 = [improveRequest article_text] ∧
    (∀ r, client (improveRequest article_text) = Except.ok r →
      (improvement_pass client article_text).1 = Except.ok r.text) ∧
    (∀ e, client (improveRequest article_text) = Except.error e →
      (improvement_pass client article_text).1 = Except.error e) := by
  refine ⟨?_, ?_, ?_⟩
  · cases h : client (improveRequest article_text) <;> simp [improvement_pass, h]
  · intro r hr
    simp [improvement_pass, hr]
  · intro e he
    simp [improvement_pass, he]

/-- Witness for C4, mirroring the repository's test inputs: a succeeding
client's response text is returned unmodified, and a raising client's
exception propagates. -/
theorem improvement_pass_spec_witness :
    (improvement_pass (fun _ => Except.ok ⟨"This is an improved draft."⟩)
        "This is a draft.").1 = Except.ok "This is an improved draft." ∧
    (improvement_pass (fun _ => Except.error "network down")
        "This is a draft.").1 = Except.error "network down" := by
  have hok := (improvement_pass_spec (fun _ => Except.ok ⟨"This is an improved draft."⟩)
    "This is a draft.").2.1 ⟨"This is an improved draft."⟩ rfl
  have herr := (improvement_pass_spec (fun _ => Except.error "network down")
    "This is a draft.").2.2 "network down" rfl
  exact ⟨hok, herr⟩

/-- The error message of the API-key check (main.py line 132). -/
def apiKeyErrorMsg : String :=
  "GOOGLE_API_KEY not found. Make sure it is set in your .env file."

/-- The startup configuration step (main.py lines 129–133):
`google_api_key = os.getenv("GOOGLE_API_KEY")`; if the value is falsy (the
variable is absent, or set to the empty string) a `ValueError` with a
descriptive message is raised, modelled by `Except.error`; otherwise the
client is constructed from the key (`genai.Client(api_key=…)`, modelled by
the constructor function `mkClient`). -/
def loadClientStep (env : String → Option String) (mkClient : String → Client) :
    Except String Client :=
  match env "GOOGLE_API_KEY" with
  | none => Except.error apiKeyErrorMsg
  | some google_api_key =>
      if google_api_key = "" then Except.error apiKeyErrorMsg
      else Except.ok (mkClient google_api_key)

/-- Python string interpolation of the possibly-`None` draft result into the
improvement prompt's f-string: `str(None)` is `"None"`. -/
def pyStr : Option String → String
  | none => "None"
  | some s => s

/-- The generation stages of the script in order (main.py lines 129–201):
the API-key check and client construction, then the draft call site
(line 163–165: model `"gemini-2.5-flash"`, temperature `0.4`, overriding the
default `0.5`), then the inline improvement call (lines 190–195).  The second
component collects every generation request issued; a key failure stops the
script before any request is made. -/
def runArticleStages (env : String → Option String) (mkClient : String → Client)
    (transcript : String) : Except String (Option String × String) × List GenRequest :=
  match loadClientStep env mkClient with
  | Except.error e => (Except.error e, [])
  | Except.ok client =>
      let d := draft_article client transcript "gemini-2.5-flash" ((2 : Rat)/5)
      let improved := improvement_pass client (pyStr d.result)
      match improved.1 with
      | Except.error e => (Except.error e, d.requests ++ improved.2)
      | Except.ok improved_article_text =>
          (Except.ok (d.result, improved_article_text), d.requests ++ improved.2)

/-- C9: if the API-key variable is absent or empty at startup, the
configuration step fails with the descriptive error message and the script
issues no generation request at all; if it holds a non-empty key, no such
error is raised and the client is constructed from exactly that key. -/
theorem api_key_startup_check (env : String → Option String)
    (mkClient : String → Client) (transcript : String) :
    ((env "GOOGLE_API_KEY" = none ∨ env "GOOGLE_API_KEY" = some "") →
      loadClientStep env mkClient = Except.error apiKeyErrorMsg ∧
      apiKeyErrorMsg ≠ "" ∧
      (runArticleStages env mkClient transcript).2 = []) ∧
    (∀ k, env "GOOGLE_API_KEY" = some k → k ≠ "" →
      loadClientStep env mkClient = Except.ok (mkClient k)) := by
  constructor
  · intro h
    have hload : loadClientStep env mkClient = Except.error apiKeyErrorMsg := by
      rcases h with h | h <;> simp [loadClientStep, h]
    refine ⟨hload, by decide, ?_⟩
    simp [runArticleStages, hload]
  · intro k hk hne
    simp [loadClientStep, hk, hne]

/-- Witness for C9: an environment with no `GOOGLE_API_KEY` fails with the
descriptive message and issues no generation request; an environment holding
the key `"sk-test"` yields a client built from that key. -/
theorem api_key_startup_check_witness :
    loadClientStep (fun _ => none) (fun _ _ => Except.error "unused") =
      Except.error apiKeyErrorMsg ∧
    (runArticleStages (fun _ => none) (fun _ _ => Except.error "unused") "t").2 = [] ∧
    loadClientStep (fun _ => some "sk-test") (fun k _ => Except.error k) =
      Except.ok (fun _ => Except.error "sk-test") := by
  have habs := (api_key_startup_check (fun _ => none)
    (fun _ _ => Except.error "unused") "t").1 (Or.inl rfl)
  have hok := (api_key_startup_check (fun _ => some "sk-test")
    (fun k _ => Except.error k) "t").2 "sk-test" rfl (by decide)
  exact ⟨habs.1, habs.2.2, hok⟩

/-- C10: whatever the environment (with a valid key), client behaviour and
transcript, the pipeline issues exactly two generation requests: the draft
request with model `"gemini-2.5-flash"` and temperature `0.4` (= 2/5,
overriding `draft_article`'s default of `0.5` = 1/2), then the improvement
request with hard-coded model `"gemini-2.0-flash"` and no temperature — two
different, independently fixed model identifiers, the second exposing neither
model nor temperature to any caller. -/
theorem pipeline_model_identifiers (env : String → Option String)
    (mkClient : String → Client) (transcript k : String)
    (hk : env "GOOGLE_API_KEY" = some k) (hne : k ≠ "") :
    ((runArticleStages env mkClient transcript).2).map
        (fun r => (r.model, r.temperature)) =
      [("gemini-2.5-flash", some ((2 : Rat)/5)),
       ("gemini-2.0-flash", (none : Option Rat))] ∧
    ((2 : Rat)/5 ≠ (1 : Rat)/2) ∧
    (∀ (c : Client) (t m : String),
      draft_article c t m = draft_article c t m ((1 : Rat)/2)) ∧
    ("gemini-2.5-flash" : String) ≠ "gemini-2.0-flash" := by
  have hload : loadClientStep env mkClient = Except.ok (mkClient k) := by
    simp [loadClientStep, hk, hne]
  refine ⟨?_, by norm_num, fun _ _ _ => rfl, by decide⟩
  have hreq : ∀ (c : Client) (t m : String) (temp : Rat),
      (draft_article c t m temp).requests = [draftRequest t m temp] := by
    intro c t m temp
    cases h : c (draftRequest t m temp) <;> simp [draft_article, h]
  have himp : ∀ (c : Client) (a : String),
      (improvement_pass c a).2 = [improveRequest a] := by
    intro c a
    cases h : c (improveRequest a) <;> simp [improvement_pass, h]
  cases h2 : (improvement_pass (mkClient k)
      (pyStr (draft_article (mkClient k) transcript "gemini-2.5-flash" ((2 : Rat)/5)).result)).1 with
  | error e =>
      simp [runArticleStages, hload, h2, hreq, himp, draftRequest, improveRequest]
  | ok v =>
      simp [runArticleStages, hload, h2, hreq, himp, draftRequest, improveRequest]

/-- Witness for C10 at a concrete environment, client constructor and
transcript. -/
theorem pipeline_model_identifiers_witness :
    ((runArticleStages (fun _ => some "sk-test") (fun _ _ => Except.error "boom")
        "a transcript").2).map (fun r => (r.model, r.temperature)) =
      [("gemini-2.5-flash", some ((2 : Rat)/5)),
       ("gemini-2.0-flash", (none : Option Rat))] := by
  exact (pipeline_model_identifiers (fun _ => some "sk-test")
    (fun _ _ => Except.error "boom") "a transcript" "sk-test" rfl (by decide)).1

/-- `Document()`: a fresh python-docx document from the default template,
which has no body paragraphs. -/
def Document_new : DocxDocument := { paragraphs := [] }

/-- `doc.add_paragraph(text)`: append one paragraph holding the text. -/
def DocxDocument.add_paragraph (doc : DocxDocument) (text : String) : DocxDocument :=
  { doc with paragraphs := doc.paragraphs ++ [text] }

/-- `export_to_docx(text, filename)` (main.py lines 223–232): create a new
document, add the text as one paragraph, and save it at the destination path
(overwriting whatever was there). -/
def export_to_docx (text filename : String) (fs : FS) : FS :=
  let doc := Document_new.add_paragraph text
  { fs with docxFiles := fun p => if p = filename then some doc else fs.docxFiles p }

/-- C8: for every input text, destination path and prior filesystem state,
`export_to_docx` saves at the given path a newly created document containing
exactly one added paragraph whose text is the input string verbatim. -/
theorem export_to_docx_single_paragraph (text filename : String) (fs : FS) :
    (export_to_docx text filename fs).docxFiles filename =
      some { paragraphs := [text] } := by
  simp [export_to_docx, Document_new, DocxDocument.add_paragraph]

/-- `text.replace("\n", "<br/>")` (main.py line 246) at character-list level:
Python `str.replace` with the single-character pattern `"\n"` replaces each
occurrence of that character by the replacement string. -/
def replaceNewlineChars : List Char → List Char
  | [] => []
  | c :: cs =>
      (if c = '\n' then "<br/>".toList else [c]) ++ replaceNewlineChars cs

/-- `formatted_text = text.replace("\n", "<br/>")` (main.py line 246). -/
def pdfFormattedText (text : String) : String :=
  String.mk (replaceNewlineChars text.toList)

/-- Modelled from the library: `SimpleDocTemplate(filename, pagesize=letter)`
followed by `doc.build([Paragraph(markup, styles["Normal"])])` writes a PDF
file embedding the paragraph markup; reportlab always emits the PDF header
before the content, so the file begins with `"%PDF-"` and is never empty. -/
def pdfRender (markup : String) : String :=
  "%PDF-" ++ markup

/-- `export_to_pdf(text, filename)` (main.py lines 235–248): convert newlines
to line-break markup, build the single-paragraph document, and write the
rendered PDF at the destination path. -/
def export_to_pdf (text filename : String) (fs : FS) : FS :=
  let formatted_text := pdfFormattedText text
  let rendered := pdfRender formatted_text
  { fs with pdfFiles := fun p => if p = filename then some rendered else fs.pdfFiles p }

lemma replaceNewlineChars_no_newline (l : List Char) :
    '\n' ∉ replaceNewlineChars l := by
  induction l with
  | nil => simp [replaceNewlineChars]
  | cons c cs ih =>
      simp only [replaceNewlineChars, List.mem_append]
      rintro (h | h)
      · by_cases hc : c = '\n'
        · rw [if_pos hc] at h
          revert h
          decide
        · rw [if_neg hc] at h
          exact hc (List.mem_singleton.mp h).symm
      · exact ih h

/-- C7: for every input text, destination path and prior filesystem state,
the paragraph markup handed to the renderer contains no literal newline
character (every `'\n'` was converted to `"<br/>"` markup first), the PDF
file written at the path is the rendering of exactly that markup, and the
written file is non-empty (in particular for every non-empty input). -/
theorem export_to_pdf_newlines (text filename : String) (fs : FS) :
    '\n' ∉ (pdfFormattedText text).toList ∧
    (export_to_pdf text filename fs).pdfFiles filename =
      some (pdfRender (pdfFormattedText text)) ∧
    (pdfRender (pdfFormattedText text)).toList ≠ [] := by
  refine ⟨?_, ?_, ?_⟩
  · exact replaceNewlineChars_no_newline text.toList
  · simp [export_to_pdf]
  · simp [pdfRender, String.toList, String.data_append]

/-- Parameter names of `draft_article` as defined in main.py line 136:
`(transcript, foundation_model, temperature=0.5)` — no client parameter. -/
def main_draft_article_params : List String :=
  ["transcript", "foundation_model", "temperature"]

/-- The top-level function names defined in main.py (lines 53, 67, 136, 223,
235); the improvement pass is inline module-level code, not a function. -/
def main_module_functions : List String :=
  ["transcribe_audio", "ensure_directories", "draft_article",
   "export_to_docx", "export_to_pdf"]

/-- The keyword-argument names with which the repository's own test suite
calls `draft_article` (tests/test_main.py lines 53–57 and 69–73). -/
def test_draft_article_kwargs : List String :=
  ["transcript", "foundation_model", "client"]

/-- The names the test suite imports from `audio_to_article.main`
(tests/test_main.py lines 4–11). -/
def test_imported_names : List String :=
  ["ensure_directories", "transcribe_audio", "draft_article",
   "improve_article", "export_to_docx", "export_to_pdf"]

/-- Python call semantics for keyword arguments: a call binding only keyword
arguments succeeds only if every keyword names a parameter of the function
(otherwise `TypeError: got an unexpected keyword argument`). -/
def pythonKwargsAccepted (params kwargs : List String) : Bool :=
  kwargs.all (fun k => params.contains k)

/-- C3 (code bug): the code contradicts its own test suite about client
injection.  main.py's `draft_article` has no `client` parameter (the client is
the module global built at line 133 and referenced inside the function), so
the tests' call `draft_article(transcript=…, foundation_model=…, client=…)`
raises `TypeError`; and main.py defines no `improve_article` function at all
(the improvement pass is inline module-level code), so the tests' import of
`improve_article` fails — while the test suite, which encodes the claimed
design, does pass the client explicitly to both. -/
theorem client_injection_code_bug :
    pythonKwargsAccepted main_draft_article_params test_draft_article_kwargs = false ∧
    "client" ∉ main_draft_article_params ∧
    "improve_article" ∉ main_module_functions ∧
    "improve_article" ∈ test_imported_names ∧
    "client" ∈ test_draft_article_kwargs := by
  refine ⟨rfl, by decide, by decide, by decide, by decide⟩
